import Mathlib

/-!
Verification of the student partial-update engine of the
`golang-upload-excel` backend.

The development embeds the two variants of the update engine found in the
repository:

* the amount-driven variant (`main.go`, duplicated in an unnamed source
  file): role-gated handler, partial-update planner with
  subscription-renewal arithmetic, and the transactional executor;
* the payment-status-driven variant (another unnamed source file): a
  planner keyed on `paymentStatus` with an unconditional
  `updated_time = NOW()` assignment.

Dates travel through the Go code as `YYYY-MM-DD` strings (the Postgres
rendering of a `DATE` and Go's `time.Now().Format("2006-01-02")`), and the
renewal branch compares them with Go's lexicographic string `>=`.  The
embedding keeps that comparison literal: a `Date` is rendered to its
zero-padded string and compared with `String` order, and a bridge lemma
shows this coincides with calendar order for well-formed dates.
-/

namespace UploadExcel

/-- A calendar date, the value denoted by the `YYYY-MM-DD` strings the Go
code stores in `sub_exp_date` and produces via `Format("2006-01-02")`. -/
structure Date where
  year : Nat
  month : Nat
  day : Nat
deriving DecidableEq, Repr

/-- Well-formed dates: exactly the values a `YYYY-MM-DD` string denotes
(four-digit year, real month, day bounded by 31). -/
def Date.valid (d : Date) : Prop :=
  d.year ≤ 9999 ∧ 1 ≤ d.month ∧ d.month ≤ 12 ∧ 1 ≤ d.day ∧ d.day ≤ 31

instance (d : Date) : Decidable d.valid := by
  unfold Date.valid
  infer_instance

/-- Two-digit zero-padded decimal rendering (Go layout `01` / `02`). -/
def pad2 (n : Nat) : List Char :=
  [Nat.digitChar (n / 10 % 10), Nat.digitChar (n % 10)]

/-- Four-digit zero-padded decimal rendering (Go layout `2006`). -/
def pad4 (n : Nat) : List Char :=
  [Nat.digitChar (n / 1000 % 10), Nat.digitChar (n / 100 % 10),
   Nat.digitChar (n / 10 % 10), Nat.digitChar (n % 10)]

/-- The `YYYY-MM-DD` rendering of a date, as produced by
`time.Now().Format("2006-01-02")` and by Postgres for a `DATE` column. -/
def Date.fmt (d : Date) : String :=
  ⟨pad4 d.year ++ '-' :: (pad2 d.month ++ '-' :: pad2 d.day)⟩

/-- Postgres `DATE + INTERVAL '1 year'`: same month and day, next year
(the add-one-year semantics of the underlying date library). -/
def Date.addOneYear (d : Date) : Date :=
  { d with year := d.year + 1 }

/-- Strict calendar order on dates. -/
def Date.calLt (a b : Date) : Prop :=
  a.year < b.year ∨
    (a.year = b.year ∧ (a.month < b.month ∨ (a.month = b.month ∧ a.day < b.day)))

/-- Calendar order on dates. -/
def Date.calLe (a b : Date) : Prop :=
  a.year < b.year ∨
    (a.year = b.year ∧ (a.month < b.month ∨ (a.month = b.month ∧ a.day ≤ b.day)))

instance (a b : Date) : Decidable (Date.calLt a b) := by
  unfold Date.calLt
  infer_instance

instance (a b : Date) : Decidable (Date.calLe a b) := by
  unfold Date.calLe
  infer_instance

/-- The renewal computation inlined in the amount-driven `updateStudent`
(main.go lines 313-322): when the stored `sub_exp_date` is non-NULL and its
string form compares `>=` against today's formatted date (a lexicographic
byte comparison in Go, `String.le` here), extend it by one year, otherwise
start from today.  `existingSubExpDate = none` models an invalid
`sql.NullString` (NULL column). -/
def renew (existingSubExpDate : Option Date) (today : Date) : Date :=
  match existingSubExpDate with
  | some e => if String.le (Date.fmt today) (Date.fmt e) then e.addOneYear else today.addOneYear
  | none => today.addOneYear

/-- One `column = value` fragment appended to `updateFields` by the
amount-driven `updateStudent`, paired with the value bound for it.
`paymentTimeNow` stands for the literal `payment_time = NOW()` fragment,
`subExpDate d` for the interpolated `sub_exp_date = DATE '...' + INTERVAL
'1 year'` fragment whose computed value is `d`. -/
inductive Assignment where
  | name (v : String)
  | phoneNumber (v : String)
  | studentClass (v : String)
  | amount (v : ℚ)
  | paymentTimeNow
  | subExpDate (d : Date)
  | updatedBy (v : String)
deriving DecidableEq, Repr

/-- The SQL column an `Assignment` fragment writes. -/
def Assignment.col : Assignment → String
  | Assignment.name _ => "name"
  | Assignment.phoneNumber _ => "phone_number"
  | Assignment.studentClass _ => "student_class"
  | Assignment.amount _ => "amount"
  | Assignment.paymentTimeNow => "payment_time"
  | Assignment.subExpDate _ => "sub_exp_date"
  | Assignment.updatedBy _ => "updated_by"

/-- The amount-driven `StudentUpdateRequest` (main.go lines 101-108): a
`none` field models an absent JSON field (`nil` pointer), `some ""` a
present empty string.  The JSON `amount` number is modelled as a rational. -/
structure StudentUpdateRequest where
  email : String
  phoneNumber : Option String := none
  name : Option String := none
  studentClass : Option String := none
  amount : Option ℚ := none
  updatedBy : Option String := none
deriving DecidableEq, Repr

/-- The fragment contributed by one optional string field of the
amount-driven variant: the Go test `student.X != nil && *student.X != ""`
guards the append, so only a present, non-empty value contributes. -/
def optField (f : String → Assignment) : Option String → List Assignment
  | some v => if v ≠ "" then [f v] else []
  | none => []

/-- The field-selection logic of the amount-driven `updateStudent`
(main.go lines 277-337, textually identical in the unnamed amount-driven
variant): each optional string field contributes a fragment when present
and non-empty, in source order name, phone, class; a present amount always
contributes its fragment, and when positive additionally `payment_time =
NOW()`, the renewed `sub_exp_date`, and — when present and non-empty — the
`updated_by` fragment. -/
def updateStudentFields (existingSubExpDate : Option Date) (today : Date)
    (student : StudentUpdateRequest) : List Assignment :=
  optField Assignment.name student.name ++
  optField Assignment.phoneNumber student.phoneNumber ++
  optField Assignment.studentClass student.studentClass ++
  (match student.amount with
   | some a =>
    Assignment.amount a ::
      (if a > 0 then
        Assignment.paymentTimeNow ::
        Assignment.subExpDate (renew existingSubExpDate today) ::
        optField Assignment.updatedBy student.updatedBy
      else [])
   | none => [])

/-- Go's `strings.ToLower` restricted to the character-wise case fold
(which coincides with Go's behaviour on ASCII emails): lowercases every
character of the string. -/
def lowerEmail (s : String) : String :=
  ⟨s.data.map Char.toLower⟩

instance {ε α : Type} [DecidableEq ε] [DecidableEq α] : DecidableEq (Except ε α) := fun x y =>
  match x, y with
  | Except.ok a, Except.ok b =>
    if h : a = b then isTrue (by rw [h]) else isFalse (fun hh => h (by cases hh; rfl))
  | Except.error a, Except.error b =>
    if h : a = b then isTrue (by rw [h]) else isFalse (fun hh => h (by cases hh; rfl))
  | Except.ok _, Except.error _ => isFalse (fun hh => (nomatch hh))
  | Except.error _, Except.ok _ => isFalse (fun hh => (nomatch hh))

/-- A row of the `students` table, restricted to the columns the update
engine reads: the email key, the nullable `sub_exp_date`, and the nullable
`role`. -/
structure StudentRow where
  email : String
  subExpDate : Option Date := none
  role : Option String := none
deriving DecidableEq, Repr

/-- A store operation issued by an update engine, as visible at the SQL
boundary: `whereLower` records whether the statement's WHERE clause wraps
the `email` column in `LOWER(...)`, and `param` the value bound for `$1`. -/
inductive StoreOp (φ : Type) where
  | selectSubExpDate (whereLower : Bool) (param : String)
  | execUpdate (whereLower : Bool) (param : String) (fields : List φ)
  | commit
deriving DecidableEq, Repr

/-- Whether a store operation is an UPDATE execution. -/
def StoreOp.isExec {φ : Type} : StoreOp φ → Prop
  | StoreOp.execUpdate _ _ _ => True
  | _ => False

/-- Rows matched by `WHERE LOWER(email) = $1` (`whereLower = true`) or
`WHERE email = $1` (`whereLower = false`) with `param` bound for `$1`. -/
def matchedRows (whereLower : Bool) (param : String) (db : List StudentRow) : Nat :=
  (db.filter fun r => if whereLower then lowerEmail r.email == param else r.email == param).length

/-- The amount-driven `updateStudent` (main.go lines 246-373) over the row
model: fetch the existing `sub_exp_date` by lowercased email (a missing row
surfaces as the `Scan` error `sql.ErrNoRows`), build the assignment list,
refuse an empty one before any write, then execute the single UPDATE keyed
by `LOWER(email) = $1` with the lowercased email bound, commit, and report
rows affected.  The second component is the trace of store operations. -/
def updateStudentRun (db : List StudentRow) (today : Date)
    (student : StudentUpdateRequest) : Except String Nat × List (StoreOp Assignment) :=
  let normalizedEmail := lowerEmail student.email
  match db.find? fun r => lowerEmail r.email == normalizedEmail with
  | none =>
    (Except.error "failed to fetch existing sub_exp_date",
     [StoreOp.selectSubExpDate true normalizedEmail])
  | some row =>
    let fields := updateStudentFields row.subExpDate today student
    if fields.length = 0 then
      (Except.error "no valid fields to update",
       [StoreOp.selectSubExpDate true normalizedEmail])
    else
      (Except.ok (matchedRows true normalizedEmail db),
       [StoreOp.selectSubExpDate true normalizedEmail,
        StoreOp.execUpdate true normalizedEmail fields,
        StoreOp.commit])

/-- Outcome of a `QueryRow(...).Scan(...)` call: a scanned value, the
`sql.ErrNoRows` outcome, or an infrastructure failure of the query itself. -/
inductive QueryResult (α : Type) where
  | row (a : α)
  | noRows
  | failure
deriving DecidableEq, Repr

/-- `getUserRole` (main.go lines 169-179): a stored NULL role scans as an
invalid `sql.NullString` and is returned as the empty string; `ErrNoRows`
and any other query failure propagate as errors. -/
def getUserRole (q : QueryResult (Option String)) : Except String String :=
  match q with
  | QueryResult.row r => Except.ok (r.getD "")
  | QueryResult.noRows => Except.error "sql: no rows in result set"
  | QueryResult.failure => Except.error "query failure"

/-- The role lookup `SELECT role FROM students WHERE LOWER(email) =
LOWER($1)` over the row model, when the store is reachable. -/
def roleQuery (db : List StudentRow) (email : String) : QueryResult (Option String) :=
  match db.find? fun r => lowerEmail r.email == lowerEmail email with
  | some r => QueryResult.row r.role
  | none => QueryResult.noRows

/-- Decision logic of the amount-driven `handleStudentUpdate` (main.go
lines 182-243) after token verification and JSON parsing: email presence
check, role lookup, the role gate, then the mapping of the `updateStudent`
result to (status code, message). -/
def handleStudentUpdateCore (roleQ : QueryResult (Option String))
    (student : StudentUpdateRequest) (updateResult : Except String Nat) : Nat × String :=
  if student.email = "" then (400, "Missing 'email' parameter")
  else
    match getUserRole roleQ with
    | Except.error _ => (500, "Failed to verify user permissions")
    | Except.ok userRole =>
      let isSubscriptionUpdate := student.amount.isSome
      if isSubscriptionUpdate && userRole != "super" then
        (403, "Only 'super' role can update subscription")
      else if !isSubscriptionUpdate && userRole != "admin" && userRole != "super" then
        (403, "Only 'admin' or 'super' role can update student fields")
      else
        match updateResult with
        | Except.error _ => (500, "Internal server error")
        | Except.ok 0 => (404, "No student found with the provided email")
        | Except.ok _ => (200, "Student updated successfully")

/-- The amount-driven handler composed with the role query and the update
engine over the row model. -/
def handleStudentUpdate (db : List StudentRow) (today : Date) (userEmail : String)
    (student : StudentUpdateRequest) : Nat × String :=
  handleStudentUpdateCore (roleQuery db userEmail) student (updateStudentRun db today student).1

/-- The payment-status-driven `StudentUpdateRequest` variant (the unnamed
status-driven source file, lines 43-49). -/
structure StatusUpdateRequest where
  email : String
  phoneNumber : Option String := none
  name : Option String := none
  studentClass : Option String := none
  paymentStatus : Option String := none
deriving DecidableEq, Repr

/-- A `column = value` fragment of the status-driven variant. -/
inductive StatusAssignment where
  | phoneNumber (v : String)
  | name (v : String)
  | studentClass (v : String)
  | paymentStatus (v : String)
  | updatedTimeNow
deriving DecidableEq, Repr

/-- The SQL column a `StatusAssignment` fragment writes. -/
def StatusAssignment.col : StatusAssignment → String
  | StatusAssignment.phoneNumber _ => "phone_number"
  | StatusAssignment.name _ => "name"
  | StatusAssignment.studentClass _ => "student_class"
  | StatusAssignment.paymentStatus _ => "payment_status"
  | StatusAssignment.updatedTimeNow => "updated_time"

/-- The fragment contributed by one optional field of the status-driven
variant: this variant tests only `student.X != nil`, with no empty-string
check, so any present value contributes. -/
def statusOptField (f : String → StatusAssignment) : Option String → List StatusAssignment
  | some v => [f v]
  | none => []

/-- The optional-field fragments of the status-driven `updateStudent`
(status-variant source, lines 148-167), in source order phone, name,
class, status. -/
def statusOptionalFields (s : StatusUpdateRequest) : List StatusAssignment :=
  statusOptField StatusAssignment.phoneNumber s.phoneNumber ++
  statusOptField StatusAssignment.name s.name ++
  statusOptField StatusAssignment.studentClass s.studentClass ++
  statusOptField StatusAssignment.paymentStatus s.paymentStatus

/-- The status-driven `updateStudent` (status-variant source, lines
135-199): appends the unconditional `updated_time = NOW()` fragment, errors
when it is the sole fragment, and otherwise executes `UPDATE ... WHERE
email = $1` binding the raw request email (no lowercasing on either side),
commits, and reports rows affected. -/
def statusUpdateStudentRun (db : List StudentRow) (s : StatusUpdateRequest) :
    Except String Nat × List (StoreOp StatusAssignment) :=
  let fields := statusOptionalFields s ++ [StatusAssignment.updatedTimeNow]
  if fields.length = 1 then
    (Except.error "no valid fields to update", [])
  else
    (Except.ok (matchedRows false s.email db),
     [StoreOp.execUpdate false s.email fields, StoreOp.commit])

/-- The status-driven `handleStudentUpdate` (status-variant source, lines
97-133) after JSON parsing: no token and no role gate in this variant; the
update result maps onto (status code, message) as in the other variant. -/
def statusHandleStudentUpdate (db : List StudentRow) (s : StatusUpdateRequest) : Nat × String :=
  if s.email = "" then (400, "Missing 'email' parameter")
  else
    match (statusUpdateStudentRun db s).1 with
    | Except.error _ => (500, "Internal server error")
    | Except.ok 0 => (404, "No student found with the provided email")
    | Except.ok _ => (200, "Student updated successfully")

/-- A store operation keys on the normalized email: its WHERE clause
compares `LOWER(email)` and its bound parameter is the lowercased target
email. -/
def opNormalized {φ : Type} (email : String) : StoreOp φ → Prop
  | StoreOp.selectSubExpDate wl p => wl = true ∧ p = lowerEmail email
  | StoreOp.execUpdate wl p _ => wl = true ∧ p = lowerEmail email
  | StoreOp.commit => True

/-- Digit characters compare like the digits they print. -/
theorem digitChar_lt_iff :
    ∀ a, a < 10 → ∀ b, b < 10 →
      ((Nat.digitChar a < Nat.digitChar b) ↔ a < b) := by
  decide

/-- Digit characters are equal exactly when the digits they print are. -/
theorem digitChar_eq_iff :
    ∀ a, a < 10 → ∀ b, b < 10 →
      ((Nat.digitChar a = Nat.digitChar b) ↔ a = b) := by
  decide

/-- All positions rendered by `pad2` / `pad4` carry digits reduced mod 10,
so `digitChar_lt_iff` applies unconditionally in that form. -/
theorem digitChar_mod_lt_iff (a b : Nat) :
    (Nat.digitChar (a % 10) < Nat.digitChar (b % 10)) ↔ a % 10 < b % 10 :=
  digitChar_lt_iff (a % 10) (Nat.mod_lt _ (by omega)) (b % 10) (Nat.mod_lt _ (by omega))

theorem digitChar_mod_eq_iff (a b : Nat) :
    (Nat.digitChar (a % 10) = Nat.digitChar (b % 10)) ↔ a % 10 = b % 10 :=
  digitChar_eq_iff (a % 10) (Nat.mod_lt _ (by omega)) (b % 10) (Nat.mod_lt _ (by omega))

theorem lex_cons_iff {a b : Char} {as bs : List Char} :
    List.Lex (· < ·) (a :: as) (b :: bs) ↔
      (a < b ∨ (a = b ∧ List.Lex (· < ·) as bs)) := by
  constructor
  · intro h
    cases h with
    | rel h => exact Or.inl h
    | cons h => exact Or.inr ⟨rfl, h⟩
  · intro h
    rcases h with h | ⟨rfl, h⟩
    · exact List.Lex.rel h
    · exact List.Lex.cons h

theorem lex_nil_iff : List.Lex (· < ·) ([] : List Char) [] ↔ False :=
  iff_false_intro (List.Lex.not_nil_right _ _)

theorem dash_lt_dash_iff : (('-' : Char) < '-') ↔ False :=
  iff_false_intro (by decide)

/-- Lexicographic comparison of four bounded digits against the numbers
they encode, threaded through a continuation proposition. -/
theorem lex_chain_4d (d1 d2 d3 d4 e1 e2 e3 e4 : Nat) (P : Prop) [Decidable P]
    (h2 : d2 ≤ 9) (h3 : d3 ≤ 9) (h4 : d4 ≤ 9)
    (k2 : e2 ≤ 9) (k3 : e3 ≤ 9) (k4 : e4 ≤ 9) :
    (d1 < e1 ∨ (d1 = e1 ∧ (d2 < e2 ∨ (d2 = e2 ∧
      (d3 < e3 ∨ (d3 = e3 ∧ (d4 < e4 ∨ (d4 = e4 ∧ P)))))))) ↔
      (1000 * d1 + 100 * d2 + 10 * d3 + d4 < 1000 * e1 + 100 * e2 + 10 * e3 + e4 ∨
        (1000 * d1 + 100 * d2 + 10 * d3 + d4 = 1000 * e1 + 100 * e2 + 10 * e3 + e4 ∧ P)) := by
  by_cases hP : P <;>
    simp only [hP, iff_true, iff_false, and_true, and_false, or_false] <;> omega

/-- Lexicographic comparison of two bounded digits against the numbers
they encode, threaded through a continuation proposition. -/
theorem lex_chain_2d (d1 d2 e1 e2 : Nat) (P : Prop) [Decidable P]
    (h2 : d2 ≤ 9) (k2 : e2 ≤ 9) :
    (d1 < e1 ∨ (d1 = e1 ∧ (d2 < e2 ∨ (d2 = e2 ∧ P)))) ↔
      (10 * d1 + d2 < 10 * e1 + e2 ∨ (10 * d1 + d2 = 10 * e1 + e2 ∧ P)) := by
  by_cases hP : P <;>
    simp only [hP, iff_true, iff_false, and_true, and_false, or_false] <;> omega

theorem four_digit_sum (y : Nat) (hy : y ≤ 9999) :
    1000 * (y / 1000 % 10) + 100 * (y / 100 % 10) + 10 * (y / 10 % 10) + y % 10 = y := by
  have a1 : y / 100 / 10 = y / 1000 := by omega
  have a2 : y / 10 / 10 = y / 100 := by omega
  omega

theorem two_digit_sum (m : Nat) (hm : m ≤ 99) : 10 * (m / 10 % 10) + m % 10 = m := by
  omega

/-- Lexicographic order of formatted `YYYY-MM-DD` strings coincides with
strict calendar order on well-formed dates. -/
theorem fmt_lex_iff {a b : Date} (ha : a.valid) (hb : b.valid) :
    List.Lex (· < ·) (Date.fmt a).data (Date.fmt b).data ↔ Date.calLt a b := by
  obtain ⟨ha1, ha2, ha3, ha4, ha5⟩ := ha
  obtain ⟨hb1, hb2, hb3, hb4, hb5⟩ := hb
  show List.Lex (· < ·) (pad4 a.year ++ '-' :: (pad2 a.month ++ '-' :: pad2 a.day))
      (pad4 b.year ++ '-' :: (pad2 b.month ++ '-' :: pad2 b.day)) ↔ _
  simp only [pad4, pad2, List.cons_append, List.nil_append,
    lex_cons_iff, lex_nil_iff, dash_lt_dash_iff,
    digitChar_mod_lt_iff, digitChar_mod_eq_iff, eq_self_iff_true,
    true_and, false_or]
  rw [lex_chain_2d (a.day / 10 % 10) (a.day % 10) (b.day / 10 % 10) (b.day % 10) False
      (by omega) (by omega),
    two_digit_sum a.day (by omega), two_digit_sum b.day (by omega)]
  rw [lex_chain_2d (a.month / 10 % 10) (a.month % 10) (b.month / 10 % 10) (b.month % 10) _
      (by omega) (by omega),
    two_digit_sum a.month (by omega), two_digit_sum b.month (by omega)]
  rw [lex_chain_4d (a.year / 1000 % 10) (a.year / 100 % 10) (a.year / 10 % 10) (a.year % 10)
      (b.year / 1000 % 10) (b.year / 100 % 10) (b.year / 10 % 10) (b.year % 10) _
      (by omega) (by omega) (by omega) (by omega) (by omega) (by omega),
    four_digit_sum a.year (by omega), four_digit_sum b.year (by omega)]
  unfold Date.calLt
  tauto

/-- Go's string `e >= t` on formatted dates (the guard of the renewal
branch) coincides with calendar `t ≤ e` on well-formed dates. -/
theorem fmt_ge_iff {e t : Date} (he : e.valid) (ht : t.valid) :
    String.le (Date.fmt t) (Date.fmt e) ↔ Date.calLe t e := by
  show (¬ List.lt (Date.fmt e).data (Date.fmt t).data) ↔ _
  rw [List.lt_iff_lex_lt, fmt_lex_iff he ht]
  unfold Date.calLt Date.calLe
  omega

theorem mem_optField_iff {f : String → Assignment} {o : Option String} {x : Assignment} :
    x ∈ optField f o ↔ ∃ v, o = some v ∧ v ≠ "" ∧ x = f v := by
  cases o with
  | none => simp [optField]
  | some v => by_cases hv : v = "" <;> simp [optField, hv]

theorem mem_statusOptField_iff {f : String → StatusAssignment} {o : Option String}
    {x : StatusAssignment} :
    x ∈ statusOptField f o ↔ ∃ v, o = some v ∧ x = f v := by
  cases o with
  | none => simp [statusOptField]
  | some v => simp [statusOptField]

/-- Per-column characterizations of the amount-driven planner output. -/
theorem name_mem_iff (e : Option Date) (t : Date) (s : StudentUpdateRequest) (v : String) :
    Assignment.name v ∈ updateStudentFields e t s ↔ (s.name = some v ∧ v ≠ "") := by
  unfold updateStudentFields
  cases hsa : s.amount with
  | none => simp [mem_optField_iff]
  | some a =>
    by_cases ha : (0 : ℚ) < a <;> simp [mem_optField_iff, gt_iff_lt, ha]

theorem phoneNumber_mem_iff (e : Option Date) (t : Date) (s : StudentUpdateRequest)
    (v : String) :
    Assignment.phoneNumber v ∈ updateStudentFields e t s ↔
      (s.phoneNumber = some v ∧ v ≠ "") := by
  unfold updateStudentFields
  cases hsa : s.amount with
  | none => simp [mem_optField_iff]
  | some a =>
    by_cases ha : (0 : ℚ) < a <;> simp [mem_optField_iff, gt_iff_lt, ha]

theorem studentClass_mem_iff (e : Option Date) (t : Date) (s : StudentUpdateRequest)
    (v : String) :
    Assignment.studentClass v ∈ updateStudentFields e t s ↔
      (s.studentClass = some v ∧ v ≠ "") := by
  unfold updateStudentFields
  cases hsa : s.amount with
  | none => simp [mem_optField_iff]
  | some a =>
    by_cases ha : (0 : ℚ) < a <;> simp [mem_optField_iff, gt_iff_lt, ha]

theorem amount_mem_iff (e : Option Date) (t : Date) (s : StudentUpdateRequest) (b : ℚ) :
    Assignment.amount b ∈ updateStudentFields e t s ↔ s.amount = some b := by
  unfold updateStudentFields
  cases hsa : s.amount with
  | none => simp [mem_optField_iff]
  | some a =>
    by_cases ha : (0 : ℚ) < a <;> simp [mem_optField_iff, gt_iff_lt, ha, eq_comm]

theorem paymentTimeNow_mem_iff (e : Option Date) (t : Date) (s : StudentUpdateRequest) :
    Assignment.paymentTimeNow ∈ updateStudentFields e t s ↔
      (∃ a, s.amount = some a ∧ 0 < a) := by
  unfold updateStudentFields
  cases hsa : s.amount with
  | none => simp [mem_optField_iff]
  | some a =>
    by_cases ha : (0 : ℚ) < a <;> simp [mem_optField_iff, gt_iff_lt, ha]

theorem subExpDate_mem_iff (e : Option Date) (t : Date) (s : StudentUpdateRequest)
    (d : Date) :
    Assignment.subExpDate d ∈ updateStudentFields e t s ↔
      ((∃ a, s.amount = some a ∧ 0 < a) ∧ d = renew e t) := by
  unfold updateStudentFields
  cases hsa : s.amount with
  | none => simp [mem_optField_iff]
  | some a =>
    by_cases ha : (0 : ℚ) < a <;> simp [mem_optField_iff, gt_iff_lt, ha]

theorem updatedBy_mem_iff (e : Option Date) (t : Date) (s : StudentUpdateRequest)
    (u : String) :
    Assignment.updatedBy u ∈ updateStudentFields e t s ↔
      ((∃ a, s.amount = some a ∧ 0 < a) ∧ s.updatedBy = some u ∧ u ≠ "") := by
  unfold updateStudentFields
  cases hsa : s.amount with
  | none => simp [mem_optField_iff]
  | some a =>
    by_cases ha : (0 : ℚ) < a <;> simp [mem_optField_iff, gt_iff_lt, ha]

/-- Per-column characterizations of the status-driven planner output. -/
theorem status_phone_mem_iff (s : StatusUpdateRequest) (v : String) :
    StatusAssignment.phoneNumber v ∈ statusOptionalFields s ↔ s.phoneNumber = some v := by
  simp [statusOptionalFields, mem_statusOptField_iff]

theorem status_name_mem_iff (s : StatusUpdateRequest) (v : String) :
    StatusAssignment.name v ∈ statusOptionalFields s ↔ s.name = some v := by
  simp [statusOptionalFields, mem_statusOptField_iff]

theorem status_class_mem_iff (s : StatusUpdateRequest) (v : String) :
    StatusAssignment.studentClass v ∈ statusOptionalFields s ↔ s.studentClass = some v := by
  simp [statusOptionalFields, mem_statusOptField_iff]

theorem status_payment_mem_iff (s : StatusUpdateRequest) (v : String) :
    StatusAssignment.paymentStatus v ∈ statusOptionalFields s ↔ s.paymentStatus = some v := by
  simp [statusOptionalFields, mem_statusOptField_iff]

/-- C3: a plan in which the optional fields produce zero assignments fails
with the "no valid fields to update" error before any UPDATE execution, in
both variants: the amount-driven run's trace holds no exec operation, and
the status-driven run's trace is empty. -/
theorem C3_empty_plan (db : List StudentRow) (t : Date) (s : StudentUpdateRequest)
    (row : StudentRow)
    (hfind : (db.find? fun r => lowerEmail r.email == lowerEmail s.email) = some row)
    (hplan : updateStudentFields row.subExpDate t s = [])
    (s2 : StatusUpdateRequest) (hplan2 : statusOptionalFields s2 = []) :
    (updateStudentRun db t s).1 = Except.error "no valid fields to update" ∧
    (∀ op ∈ (updateStudentRun db t s).2, ¬ op.isExec) ∧
    (statusUpdateStudentRun db s2).1 = Except.error "no valid fields to update" ∧
    (statusUpdateStudentRun db s2).2 = [] := by
  have hrun : updateStudentRun db t s =
      (Except.error "no valid fields to update",
       [StoreOp.selectSubExpDate true (lowerEmail s.email)]) := by
    simp [updateStudentRun, hfind, hplan]
  have hrun2 : statusUpdateStudentRun db s2 =
      (Except.error "no valid fields to update", []) := by
    simp [statusUpdateStudentRun, hplan2]
  refine ⟨by rw [hrun], ?_, by rw [hrun2], by rw [hrun2]⟩
  rw [hrun]
  intro op hop
  simp only [List.mem_singleton] at hop
  subst hop
  simp [StoreOp.isExec]

/-- C3 witness: an all-empty request against an existing row fails with
the "no valid fields to update" error. -/
theorem C3_empty_plan_witness :
    (updateStudentRun [{ email := "a@b.com" }] (Date.mk 2024 6 1) { email := "a@b.com" }).1 =
      Except.error "no valid fields to update" :=
  (C3_empty_plan [{ email := "a@b.com" }] (Date.mk 2024 6 1) { email := "a@b.com" }
      { email := "a@b.com" } (by decide) (by decide)
      { email := "a@b.com" } (by decide)).1

/-- C4: with an amount present and non-positive, the amount column is
assigned while the subscription-expiry, payment-timestamp, and actor
columns are never assigned, even when a non-empty updatedBy is present. -/
theorem C4_nonpositive_amount (e : Option Date) (t : Date)
    (s : StudentUpdateRequest) (a : ℚ) (hsa : s.amount = some a) (ha : a ≤ 0) :
    Assignment.amount a ∈ updateStudentFields e t s ∧
    Assignment.paymentTimeNow ∉ updateStudentFields e t s ∧
    (∀ d, Assignment.subExpDate d ∉ updateStudentFields e t s) ∧
    (∀ u, Assignment.updatedBy u ∉ updateStudentFields e t s) := by
  have hnopos : ¬ ∃ b, s.amount = some b ∧ 0 < b := by
    rintro ⟨b, hb, hbpos⟩
    rw [hsa] at hb
    injection hb with hb
    subst hb
    exact absurd hbpos (not_lt.mpr ha)
  refine ⟨(amount_mem_iff e t s a).mpr hsa, ?_, ?_, ?_⟩
  · rw [paymentTimeNow_mem_iff]
    exact hnopos
  · intro d hd
    rw [subExpDate_mem_iff] at hd
    exact hnopos hd.1
  · intro u hu
    rw [updatedBy_mem_iff] at hu
    exact hnopos hu.1

/-- C4 witness: amount −5 with a non-empty updatedBy assigns only the
amount column. -/
theorem C4_nonpositive_amount_witness :
    Assignment.amount (-5) ∈ updateStudentFields none (Date.mk 2024 6 1)
      { email := "a@b.com", amount := some (-5), updatedBy := some "boss@x.com" } :=
  (C4_nonpositive_amount none (Date.mk 2024 6 1)
      { email := "a@b.com", amount := some (-5), updatedBy := some "boss@x.com" }
      (-5) rfl (by norm_num)).1

/-- C1: for every existing-expiry value `e` and current date `t`, the
renewal computation performed when a positive amount is present yields
`e + 1 year` when `e` is non-null and `e ≥ t` in calendar order, and
`t + 1 year` otherwise (`e` null or `e < t`); the planner records exactly
this value in the `sub_exp_date` assignment whenever a positive amount is
present. -/
theorem C1_renewal (e : Option Date) (t : Date)
    (he : ∀ d, e = some d → d.valid) (ht : t.valid) :
    (e = none → renew e t = t.addOneYear) ∧
    (∀ d, e = some d → Date.calLe t d → renew e t = d.addOneYear) ∧
    (∀ d, e = some d → ¬ Date.calLe t d → renew e t = t.addOneYear) ∧
    (∀ (s : StudentUpdateRequest) (a : ℚ), s.amount = some a → 0 < a →
      Assignment.subExpDate (renew e t) ∈ updateStudentFields e t s) := by
  refine ⟨?_, ?_, ?_, ?_⟩
  · rintro rfl
    rfl
  · rintro d rfl hle
    show (if String.le (Date.fmt t) (Date.fmt d) then d.addOneYear else t.addOneYear) = _
    rw [if_pos ((fmt_ge_iff (he d rfl) ht).mpr hle)]
  · rintro d rfl hnle
    show (if String.le (Date.fmt t) (Date.fmt d) then d.addOneYear else t.addOneYear) = _
    rw [if_neg (fun hc => hnle ((fmt_ge_iff (he d rfl) ht).mp hc))]
  · intro s a hsa ha
    unfold updateStudentFields
    rw [hsa]
    apply List.mem_append_right
    apply List.mem_cons_of_mem
    rw [if_pos ha]
    exact List.mem_cons_of_mem _ (List.mem_cons_self _ _)

/-- C1 witness: with prior expiry 2099-01-01 and today 2024-06-01 the
renewal extends the existing expiry by one year. -/
theorem C1_renewal_witness :
    renew (some (Date.mk 2099 1 1)) (Date.mk 2024 6 1) = (Date.mk 2099 1 1).addOneYear :=
  (C1_renewal (some (Date.mk 2099 1 1)) (Date.mk 2024 6 1)
      (by intro d hd; cases hd; decide) (by decide)).2.1
    (Date.mk 2099 1 1) rfl (by decide)

/-- C2: with a successful role lookup, the amount-driven handler answers
with the forbidden (403) response exactly when the role matrix denies the
request: a request carrying an amount field (present regardless of value)
requires role "super"; one without requires "admin" or "super"; every
other role, the empty role included, is denied. -/
theorem C2_role_gate (role : String) (s : StudentUpdateRequest)
    (upd : Except String Nat) (he : s.email ≠ "") :
    ((handleStudentUpdateCore (QueryResult.row (some role)) s upd).1 = 403 ↔
      ¬ (if s.amount.isSome then role = "super" else (role = "admin" ∨ role = "super"))) := by
  rcases upd with msg | n
  · by_cases h1 : role = "super" <;> by_cases h2 : role = "admin" <;>
      cases hs : s.amount.isSome <;>
      simp [handleStudentUpdateCore, getUserRole, he, h1, h2, hs]
  · rcases n with _ | n <;>
      by_cases h1 : role = "super" <;> by_cases h2 : role = "admin" <;>
      cases hs : s.amount.isSome <;>
      simp [handleStudentUpdateCore, getUserRole, he, h1, h2, hs]

/-- C2 witness: an "admin" submitting a request with an amount present is
denied with 403. -/
theorem C2_role_gate_witness :
    (handleStudentUpdateCore (QueryResult.row (some "admin"))
        { email := "e@x.com", amount := some 100 } (Except.ok 1)).1 = 403 :=
  (C2_role_gate "admin" { email := "e@x.com", amount := some 100 }
      (Except.ok 1) (by decide)).mpr (by decide)

/-- C5 counterexample: in the payment-status variant a present-but-empty
phoneNumber still produces a column assignment, refuting the tri-state
claim for "every variant of the update engine". -/
theorem C5_counterexample :
    StatusAssignment.phoneNumber "" ∈
      statusOptionalFields { email := "a@b.com", phoneNumber := some "" } := by
  decide

/-- C5 amended: in the amount-driven variant an absent or present-but-empty
optional field produces no column assignment (an assignment exists only for
a present, non-empty value); in the payment-status variant only absence
suppresses the assignment — any present value, the empty string included,
produces one. -/
theorem C5_tristate (e : Option Date) (t : Date) (s : StudentUpdateRequest)
    (s2 : StatusUpdateRequest) :
    (∀ v, Assignment.name v ∈ updateStudentFields e t s → s.name = some v ∧ v ≠ "") ∧
    (∀ v, Assignment.phoneNumber v ∈ updateStudentFields e t s →
      s.phoneNumber = some v ∧ v ≠ "") ∧
    (∀ v, Assignment.studentClass v ∈ updateStudentFields e t s →
      s.studentClass = some v ∧ v ≠ "") ∧
    (∀ v, Assignment.updatedBy v ∈ updateStudentFields e t s →
      s.updatedBy = some v ∧ v ≠ "") ∧
    (∀ b, Assignment.amount b ∈ updateStudentFields e t s → s.amount = some b) ∧
    (∀ v, StatusAssignment.phoneNumber v ∈ statusOptionalFields s2 ↔
      s2.phoneNumber = some v) ∧
    (∀ v, StatusAssignment.name v ∈ statusOptionalFields s2 ↔ s2.name = some v) ∧
    (∀ v, StatusAssignment.studentClass v ∈ statusOptionalFields s2 ↔
      s2.studentClass = some v) ∧
    (∀ v, StatusAssignment.paymentStatus v ∈ statusOptionalFields s2 ↔
      s2.paymentStatus = some v) := by
  refine ⟨?_, ?_, ?_, ?_, ?_, ?_, ?_, ?_, ?_⟩
  · intro v h
    exact (name_mem_iff e t s v).mp h
  · intro v h
    exact (phoneNumber_mem_iff e t s v).mp h
  · intro v h
    exact (studentClass_mem_iff e t s v).mp h
  · intro v h
    exact ((updatedBy_mem_iff e t s v).mp h).2
  · intro b h
    exact (amount_mem_iff e t s b).mp h
  · exact status_phone_mem_iff s2
  · exact status_name_mem_iff s2
  · exact status_class_mem_iff s2
  · exact status_payment_mem_iff s2

/-- C5 witness: a phone-number assignment in the amount-driven planner
output forces a present, non-empty phoneNumber field. -/
theorem C5_tristate_witness :
    ({ email := "a@b.com", phoneNumber := some "12345" } :
      StudentUpdateRequest).phoneNumber = some "12345" ∧ "12345" ≠ "" :=
  (C5_tristate none (Date.mk 2024 6 1) { email := "a@b.com", phoneNumber := some "12345" }
      { email := "a@b.com" }).2.1 "12345" (by decide)

/-- C6 counterexample: the status-driven engine binds the raw request email
"A@B.com" — not its lowercase-normalized form — and its WHERE clause
compares the raw `email` column, so the UPDATE misses the stored row
"a@b.com" and reports zero rows. -/
theorem C6_counterexample :
    (statusUpdateStudentRun [{ email := "a@b.com" }]
        { email := "A@B.com", name := some "X" }).2 =
      [StoreOp.execUpdate false "A@B.com"
        [StatusAssignment.name "X", StatusAssignment.updatedTimeNow],
       StoreOp.commit] ∧
    (statusUpdateStudentRun [{ email := "a@b.com" }]
        { email := "A@B.com", name := some "X" }).1 = Except.ok 0 ∧
    "A@B.com" ≠ lowerEmail "A@B.com" := by
  decide

/-- C6 amended: in the amount-driven variant every store operation issued
by the update engine keys on the normalized email — the WHERE clause
compares `LOWER(email)` and the lowercased target email is bound — while
the payment-status variant binds the raw email and compares the raw column
(per the counterexample). -/
theorem C6_normalized_key (db : List StudentRow) (t : Date) (s : StudentUpdateRequest) :
    ∀ op ∈ (updateStudentRun db t s).2, opNormalized s.email op := by
  intro op hop
  simp only [updateStudentRun] at hop
  cases hfind : db.find? fun r => lowerEmail r.email == lowerEmail s.email with
  | none =>
    simp only [hfind, List.mem_singleton] at hop
    subst hop
    exact ⟨rfl, rfl⟩
  | some row =>
    simp only [hfind] at hop
    by_cases hlen : (updateStudentFields row.subExpDate t s).length = 0
    · rw [if_pos hlen] at hop
      simp only [List.mem_singleton] at hop
      subst hop
      exact ⟨rfl, rfl⟩
    · rw [if_neg hlen] at hop
      simp only [List.mem_cons, List.not_mem_nil, or_false] at hop
      rcases hop with rfl | rfl | rfl
      · exact ⟨rfl, rfl⟩
      · exact ⟨rfl, rfl⟩
      · exact trivial

/-- C6 witness: the select issued for an uppercase request email binds the
lowercased email under a LOWER(email) comparison. -/
theorem C6_normalized_key_witness :
    opNormalized "A@B.com"
      (StoreOp.selectSubExpDate true (lowerEmail "A@B.com") : StoreOp Assignment) :=
  C6_normalized_key [] (Date.mk 2024 6 1) { email := "A@B.com" }
    (StoreOp.selectSubExpDate true (lowerEmail "A@B.com")) (by decide)

/-- C7: a stored NULL role is returned as the empty role (not an error),
and authorization then proceeds to the 403 deny; a failure of the lookup
itself surfaces as the 500 infrastructure response, distinct from 403. -/
theorem C7_role_lookup (s : StudentUpdateRequest) (upd : Except String Nat)
    (he : s.email ≠ "") :
    getUserRole (QueryResult.row none) = Except.ok "" ∧
    (handleStudentUpdateCore (QueryResult.row none) s upd).1 = 403 ∧
    (handleStudentUpdateCore QueryResult.failure s upd).1 = 500 := by
  refine ⟨rfl, ?_, ?_⟩
  · cases hs : s.amount.isSome <;>
      simp [handleStudentUpdateCore, getUserRole, he, hs]
  · simp [handleStudentUpdateCore, getUserRole, he]

/-- C7 witness: with a NULL stored role a profile update is denied 403. -/
theorem C7_role_lookup_witness :
    (handleStudentUpdateCore (QueryResult.row none)
        { email := "a@b.com" } (Except.ok 1)).1 = 403 :=
  (C7_role_lookup { email := "a@b.com" } (Except.ok 1) (by decide)).2.1

/-- C8: an executed UPDATE matching zero rows yields the distinct non-error
ok-0 outcome and is mapped to the 404 response, never 200 and never 500:
shown end-to-end for the status-driven pipeline on a well-formed request
matching no stored row, and for the amount-driven handler's mapping of the
ok-0 engine outcome. -/
theorem C8_zero_rows (db : List StudentRow) (s2 : StatusUpdateRequest)
    (hne : s2.email ≠ "") (hfields : statusOptionalFields s2 ≠ [])
    (hmatch : matchedRows false s2.email db = 0)
    (role : String) (s : StudentUpdateRequest) (he : s.email ≠ "")
    (hallow : if s.amount.isSome then role = "super"
      else (role = "admin" ∨ role = "super")) :
    (statusUpdateStudentRun db s2).1 = Except.ok 0 ∧
    statusHandleStudentUpdate db s2 = (404, "No student found with the provided email") ∧
    (handleStudentUpdateCore (QueryResult.row (some role)) s (Except.ok 0)).1 = 404 := by
  have hrun : (statusUpdateStudentRun db s2).1 = Except.ok 0 := by
    simp [statusUpdateStudentRun, hfields, hmatch]
  refine ⟨hrun, ?_, ?_⟩
  · simp [statusHandleStudentUpdate, hne, hrun]
  · cases hs : s.amount.isSome with
    | true =>
      rw [hs] at hallow
      simp at hallow
      subst hallow
      simp [handleStudentUpdateCore, getUserRole, he, hs]
    | false =>
      rw [hs] at hallow
      simp at hallow
      rcases hallow with rfl | rfl <;>
        simp [handleStudentUpdateCore, getUserRole, he, hs]

/-- C8 witness: a well-formed status-variant request against an empty
store maps to the 404 response. -/
theorem C8_zero_rows_witness :
    statusHandleStudentUpdate [] { email := "a@b.com", name := some "X" } =
      (404, "No student found with the provided email") :=
  (C8_zero_rows [] { email := "a@b.com", name := some "X" } (by decide) (by decide) (by decide)
      "super" { email := "a@b.com", amount := some 1 } (by decide) (by decide)).2.1

/-- C9 counterexample: in the payment-status variant a request carrying
paymentStatus "PAID" produces exactly the payment-status and the
unconditional updated-time assignments: no payment-timestamp
(`payment_time`) and no actor (`updated_by`) assignment is triggered,
whatever the previous status was. -/
theorem C9_counterexample :
    statusOptionalFields { email := "x@y.com", paymentStatus := some "PAID" } ++
        [StatusAssignment.updatedTimeNow] =
      [StatusAssignment.paymentStatus "PAID", StatusAssignment.updatedTimeNow] ∧
    (∀ x ∈ statusOptionalFields { email := "x@y.com", paymentStatus := some "PAID" } ++
        [StatusAssignment.updatedTimeNow],
      x.col ≠ "payment_time" ∧ x.col ≠ "updated_by") := by
  decide

/-- C9 amended: in the payment-status variant, a present paymentStatus
value assigns the payment-status column unconditionally — the planner never
reads the previous status — and the only columns this variant can ever
assign are phone_number, name, student_class, payment_status and the
unconditional updated_time; no payment-timestamp or actor assignment
exists. -/
theorem C9_status_assignment (s : StatusUpdateRequest) (v : String)
    (h : s.paymentStatus = some v) :
    StatusAssignment.paymentStatus v ∈ statusOptionalFields s ∧
    (∀ x ∈ statusOptionalFields s ++ [StatusAssignment.updatedTimeNow],
      x.col ∈ (["phone_number", "name", "student_class", "payment_status",
        "updated_time"] : List String)) := by
  refine ⟨(status_payment_mem_iff s v).mpr h, ?_⟩
  intro x hx
  cases x <;> simp [StatusAssignment.col]

/-- C9 witness: paymentStatus "PAID" produces its column assignment. -/
theorem C9_status_assignment_witness :
    StatusAssignment.paymentStatus "PAID" ∈
      statusOptionalFields { email := "x@y.com", paymentStatus := some "PAID" } :=
  (C9_status_assignment { email := "x@y.com", paymentStatus := some "PAID" } "PAID" rfl).1

/-- C10: in the amount-driven variant a request whose only present,
non-empty optional field is updatedBy plans zero assignments and the run
fails with the "no valid fields to update" error; the actor column is only
ever assigned when a positive amount is present. -/
theorem C10_actor_alone (db : List StudentRow) (t : Date) (s : StudentUpdateRequest)
    (row : StudentRow)
    (hfind : (db.find? fun r => lowerEmail r.email == lowerEmail s.email) = some row)
    (hn : ∀ v, s.name = some v → v = "") (hp : ∀ v, s.phoneNumber = some v → v = "")
    (hc : ∀ v, s.studentClass = some v → v = "") (ha : s.amount = none)
    (u : String) (hu : s.updatedBy = some u) (hune : u ≠ "") :
    updateStudentFields row.subExpDate t s = [] ∧
    (updateStudentRun db t s).1 = Except.error "no valid fields to update" ∧
    (∀ (e2 : Option Date) (t2 : Date) (s3 : StudentUpdateRequest) (v : String),
      Assignment.updatedBy v ∈ updateStudentFields e2 t2 s3 →
        ∃ b, s3.amount = some b ∧ 0 < b) := by
  have h1 : optField Assignment.name s.name = [] := by
    cases hsn : s.name with
    | none => rfl
    | some v => simp [optField, hn v hsn]
  have h2 : optField Assignment.phoneNumber s.phoneNumber = [] := by
    cases hsn : s.phoneNumber with
    | none => rfl
    | some v => simp [optField, hp v hsn]
  have h3 : optField Assignment.studentClass s.studentClass = [] := by
    cases hsn : s.studentClass with
    | none => rfl
    | some v => simp [optField, hc v hsn]
  have hplan : updateStudentFields row.subExpDate t s = [] := by
    unfold updateStudentFields
    rw [ha, h1, h2, h3]
    rfl
  refine ⟨hplan, ?_, ?_⟩
  · simp [updateStudentRun, hfind, hplan]
  · intro e2 t2 s3 v hmem
    exact ((updatedBy_mem_iff e2 t2 s3 v).mp hmem).1

/-- C10 witness: a request carrying only a non-empty updatedBy fails with
the "no valid fields to update" error. -/
theorem C10_actor_alone_witness :
    (updateStudentRun [{ email := "a@b.com" }] (Date.mk 2024 6 1)
        { email := "a@b.com", updatedBy := some "boss@x.com" }).1 =
      Except.error "no valid fields to update" :=
  (C10_actor_alone [{ email := "a@b.com" }] (Date.mk 2024 6 1)
      { email := "a@b.com", updatedBy := some "boss@x.com" } { email := "a@b.com" }
      (by decide) (fun v h => (nomatch h)) (fun v h => (nomatch h)) (fun v h => (nomatch h))
      rfl "boss@x.com" rfl (by decide)).2.1

end UploadExcel
